import Mathlib

/-!
Verification development for the SenseHub sensor pipeline.

The Rust source is shallowly embedded in Lean: `f64` arithmetic is modelled
exactly by rationals (`ℚ`), `i64`/`i32` timestamps and counts by `ℤ`/`ℕ`,
`Vec`/`VecDeque` by `List` (front of the deque = head of the list), and
fallible store operations by `Except`/oracle parameters.  All definitions
are computable, so concrete runs can be checked by `decide`/`rfl`.
-/

namespace SenseHub

/-- Rust `f64::round()`: round half away from zero, modelled on `ℚ`. -/
def rustRound (q : ℚ) : ℤ := if 0 ≤ q then ⌊q + 1/2⌋ else ⌈q - 1/2⌉

/-- Rust `as i64` cast of a float value: truncation toward zero. -/
def ratTrunc (q : ℚ) : ℤ := if 0 ≤ q then ⌊q⌋ else ⌈q⌉

/-- Rust `as usize` cast of a float value: truncation toward zero,
saturating at 0 for negative inputs. -/
def ratTruncNat (q : ℚ) : ℕ := (⌊q⌋).toNat

/-- `src/types/data_point.rs`: one accelerometer/gyroscope record. -/
structure DataPoint where
  x : ℚ
  y : ℚ
  z : ℚ
  gx : ℚ
  gy : ℚ
  gz : ℚ
  timestamp : ℤ
deriving DecidableEq, Repr

instance : Inhabited DataPoint := ⟨⟨0, 0, 0, 0, 0, 0, 0⟩⟩

/-- One stored audio block, the Rust tuple
`(start_ts, end_ts, samples, sample_rate, channels, format)` used by
`align_session_data_internal` in `src/database/tasks.rs`. -/
structure AudioBlock where
  start_ts : ℤ
  end_ts : ℤ
  samples : List ℚ
  sample_rate : ℕ
  channels : ℕ
  format : String
deriving DecidableEq, Repr

/-- The initial values of the metadata accumulators in the audio-merge loop
of `align_session_data_internal` (`16000u32`, `1u8`, `"PCM_16"`). -/
instance : Inhabited AudioBlock := ⟨⟨0, 0, [], 16000, 1, "PCM_16"⟩⟩

/-- `src/database/tasks.rs` lines 141-150: the estimated accelerometer
sample rate; falls back to the hard-coded `400.0` when the stream has
fewer than 2 samples or a non-positive span. -/
def accSampleRateOf (acc_data : List DataPoint) : ℚ :=
  if 1 < acc_data.length then
    let acc_duration_ms : ℤ :=
      (acc_data.getLast?.getD default).timestamp - (acc_data.head?.getD default).timestamp
    if 0 < acc_duration_ms then
      ((acc_data.length - 1 : ℕ) : ℚ) * 1000 / (acc_duration_ms : ℚ)
    else 400
  else 400

/-- The padding loop for `shift_samples > 0`: `shift_count` copies of the
first point with timestamps `first.timestamp - ((shift_count - i) *
sample_interval_ms) as i64` for `i = 0, …, shift_count-1`. -/
def syntheticFront (first_point : DataPoint) (shift_count : ℕ)
    (sample_interval_ms : ℚ) : List DataPoint :=
  (List.range shift_count).map fun i =>
    { first_point with
      timestamp := first_point.timestamp -
        ratTrunc (((shift_count - i : ℕ) : ℚ) * sample_interval_ms) }

/-- The padding loop for `shift_samples < 0`: `shift_count` copies of the
last point with timestamps `last.timestamp + (i * sample_interval_ms) as i64`
for `i = 1, …, shift_count`. -/
def syntheticBack (last_point : DataPoint) (shift_count : ℕ)
    (sample_interval_ms : ℚ) : List DataPoint :=
  (List.range shift_count).map fun i =>
    { last_point with
      timestamp := last_point.timestamp +
        ratTrunc (((i + 1 : ℕ) : ℚ) * sample_interval_ms) }

/-- `src/database/tasks.rs` lines 157-223: the accelerometer branch of the
alignment (`aligned_acc_data`). -/
def alignAcc (acc_data : List DataPoint) (acc_sample_rate : ℚ)
    (shift_samples : ℤ) : List DataPoint :=
  if shift_samples = 0 then
    acc_data
  else if 0 < shift_samples then
    let shift_count := shift_samples.toNat
    let pre := match acc_data.head? with
      | some first_point =>
          syntheticFront first_point shift_count (1000 / acc_sample_rate)
      | none => []
    let end_index :=
      if shift_count < acc_data.length then acc_data.length - shift_count else 0
    pre ++ acc_data.take end_index
  else
    let shift_count := (-shift_samples).toNat
    let start_index := min shift_count acc_data.length
    let suf := match acc_data.getLast? with
      | some last_point =>
          syntheticBack last_point shift_count (1000 / acc_sample_rate)
      | none => []
    acc_data.drop start_index ++ suf

/-- `src/database/tasks.rs` lines 225-254: merging of all audio blocks into
one contiguous block carrying the last block's metadata; empty when no
samples exist. -/
def mergeAudio (audio_data : List AudioBlock) : List AudioBlock :=
  let all_audio_samples := audio_data.foldl (fun s b => s ++ b.samples) []
  if all_audio_samples.isEmpty then []
  else
    [{ start_ts := (audio_data.head?.getD default).start_ts
       end_ts := (audio_data.getLast?.getD default).end_ts
       samples := all_audio_samples
       sample_rate := (audio_data.getLast?.getD default).sample_rate
       channels := (audio_data.getLast?.getD default).channels
       format := (audio_data.getLast?.getD default).format }]

/-- `src/database/tasks.rs` lines 112-263: `align_session_data_internal`.
Returns the aligned accelerometer vector, the merged audio blocks, and the
absolute audio-vs-acc end-timestamp difference as the alignment offset. -/
def align_session_data_internal (acc_data : List DataPoint)
    (audio_data : List AudioBlock) :
    List DataPoint × List AudioBlock × ℤ :=
  if acc_data.isEmpty ∨ audio_data.isEmpty then
    (acc_data, audio_data, 0)
  else
    let acc_last_timestamp := (acc_data.getLast?.getD default).timestamp
    let audio_last_timestamp := (audio_data.getLast?.getD default).end_ts
    let time_diff_ms := audio_last_timestamp - acc_last_timestamp
    let acc_sample_rate := accSampleRateOf acc_data
    let shift_samples := rustRound ((time_diff_ms : ℚ) * acc_sample_rate / 1000)
    (alignAcc acc_data acc_sample_rate shift_samples,
     mergeAudio audio_data,
     |time_diff_ms|)

/-- Flatten a list of audio blocks into one sample vector (the
`all_audio_samples.extend(samples)` loops in `tasks.rs`/`handlers.rs`). -/
def flattenAudio (audio_data : List AudioBlock) : List ℚ :=
  audio_data.foldl (fun s b => s ++ b.samples) []

/-- One data row of the exported CSV (`export_session_to_csv_internal`),
abstracting a written line by which fields are populated: `acc_fields`
is the six accelerometer/gyroscope values (or blank), `audio_field` the
audio sample (or blank).  The code never zero-fills a missing side. -/
structure CsvRow where
  acc_fields : Option (ℚ × ℚ × ℚ × ℚ × ℚ × ℚ)
  audio_field : Option ℚ
deriving DecidableEq, Repr

/-- The six sensor fields written for one `DataPoint`. -/
def rowFields (p : DataPoint) : ℚ × ℚ × ℚ × ℚ × ℚ × ℚ :=
  (p.x, p.y, p.z, p.gx, p.gy, p.gz)

/-- `src/database/tasks.rs` lines 71-103: the data rows of the CSV.
The first `min` rows pair the streams index by index; the remaining rows
of the longer stream leave the other side blank. -/
def csvDataRows (aligned_acc_data : List DataPoint)
    (all_audio_samples : List ℚ) : List CsvRow :=
  let combined := List.zipWith
    (fun p a => CsvRow.mk (some (rowFields p)) (some a))
    aligned_acc_data all_audio_samples
  let rest :=
    if all_audio_samples.length < aligned_acc_data.length then
      (aligned_acc_data.drop all_audio_samples.length).map
        fun p => CsvRow.mk (some (rowFields p)) none
    else if aligned_acc_data.length < all_audio_samples.length then
      (all_audio_samples.drop aligned_acc_data.length).map
        fun a => CsvRow.mk none (some a)
    else []
  combined ++ rest

/-- `src/database/tasks.rs` line 62: the CSV header line. -/
def csvHeader : String := "acc_x,acc_y,acc_z,gyro_x,gyro_y,gyro_z,audio_sample"

/-- The CSV body written by `export_session_to_csv_internal` for a
session whose aligned data is given: the header followed by the data
rows over the flattened audio samples. -/
def exportCsv (aligned_acc_data : List DataPoint)
    (trimmed_audio_data : List AudioBlock) : String × List CsvRow :=
  (csvHeader, csvDataRows aligned_acc_data (flattenAudio trimmed_audio_data))

/-! ## Sliding window buffer (`src/plotter.rs`) -/

/-- `src/plotter.rs`: `WaveformPlot` - six sensor ring buffers plus the
audio buffer, each a `VecDeque` (head of list = front of deque). -/
structure WaveformPlot where
  buffer_x : List ℚ
  buffer_y : List ℚ
  buffer_z : List ℚ
  buffer_gx : List ℚ
  buffer_gy : List ℚ
  buffer_gz : List ℚ
  buffer_timestamp : List ℤ
  audio_buffer : List ℚ
  audio_timestamps : List ℤ
  max_samples : ℕ
  window_duration : ℚ
  audio_max_samples : ℕ
  audio_window_duration : ℚ
deriving DecidableEq, Repr

/-- The slice of `PlotConfig` (`src/config.rs`) the embedded code reads. -/
structure PlotConfig where
  window_duration_seconds : ℚ
deriving DecidableEq, Repr

/-- `WaveformPlot::new` (`src/plotter.rs` lines 48-72): capacities are the
`as usize` truncation of `window_seconds * rate`; the audio rate is the
hard-coded constant 16000. -/
def WaveformPlot.new (sample_rate : ℕ) (config : PlotConfig) : WaveformPlot :=
  let window_seconds := config.window_duration_seconds
  let max_samples := ratTruncNat (window_seconds * (sample_rate : ℚ))
  let audio_sample_rate : ℕ := 16000
  let audio_max_samples := ratTruncNat (window_seconds * (audio_sample_rate : ℚ))
  { buffer_x := [], buffer_y := [], buffer_z := []
    buffer_gx := [], buffer_gy := [], buffer_gz := []
    buffer_timestamp := []
    audio_buffer := [], audio_timestamps := []
    max_samples
    window_duration := window_seconds
    audio_max_samples
    audio_window_duration := window_seconds }

/-- `WaveformPlot::add_data` (`src/plotter.rs` lines 74-94): push to the
tail of every sensor buffer; if over capacity, pop one element from the
front of each. -/
def WaveformPlot.add_data (p : WaveformPlot) (x y z gx gy gz : ℚ)
    (timestamp : ℤ) : WaveformPlot :=
  let q := { p with
    buffer_x := p.buffer_x ++ [x]
    buffer_y := p.buffer_y ++ [y]
    buffer_z := p.buffer_z ++ [z]
    buffer_gx := p.buffer_gx ++ [gx]
    buffer_gy := p.buffer_gy ++ [gy]
    buffer_gz := p.buffer_gz ++ [gz]
    buffer_timestamp := p.buffer_timestamp ++ [timestamp] }
  if p.max_samples < q.buffer_x.length then
    { q with
      buffer_x := q.buffer_x.drop 1
      buffer_y := q.buffer_y.drop 1
      buffer_z := q.buffer_z.drop 1
      buffer_gx := q.buffer_gx.drop 1
      buffer_gy := q.buffer_gy.drop 1
      buffer_gz := q.buffer_gz.drop 1
      buffer_timestamp := q.buffer_timestamp.drop 1 }
  else q

/-- `WaveformPlot::add_audio_samples` (`src/plotter.rs` lines 96-118):
normalize `i16` samples to `[-1,1]`, derive per-sample timestamps, extend
both audio buffers, then pop from the front while over capacity (the
`while` loop is the front-drop down to capacity, i.e. `drop (len - cap)`). -/
def WaveformPlot.add_audio_samples (p : WaveformPlot) (samples : List ℤ)
    (base_timestamp : ℤ) (sample_rate : ℕ) : WaveformPlot :=
  let normalized_samples := samples.map fun s => (s : ℚ) / 32768
  let sample_interval_ms : ℚ := 1000 / (sample_rate : ℚ)
  let timestamps := (List.range samples.length).map
    fun i => base_timestamp + ratTrunc ((i : ℚ) * sample_interval_ms)
  let buf := p.audio_buffer ++ normalized_samples
  let tsb := p.audio_timestamps ++ timestamps
  { p with
    audio_buffer := buf.drop (buf.length - p.audio_max_samples)
    audio_timestamps := tsb.drop (tsb.length - p.audio_max_samples) }

/-! ## Calibration engine (`src/app/handlers/calibration.rs`,
`src/app/state.rs`) -/

/-- `CalibrationState` (`src/app/state.rs` lines 45-62); the `Instant`
start time is modelled as an opaque token so that only its presence is
observable. -/
structure CalibrationState where
  is_calibrating : Bool
  calibration_data : List DataPoint
  calibration_start_time : Option ℕ
  calculated_sample_rate : Option ℚ
deriving DecidableEq, Repr

/-- The slice of `AppState` read and written by the calibration paths:
the calibration state, the collection flag, and the sliding-window
buffers.  The remaining `AppState` fields are untouched by those paths. -/
structure AppCalView where
  calibration : CalibrationState
  is_collecting : Bool
  waveform_plot : WaveformPlot
deriving DecidableEq, Repr

/-- `AppState::complete_calibration` (`src/app/state.rs` lines 320-331):
record the rate, leave calibration, start collecting, rebuild the plot
from the truncated rate, and clear the accumulator. -/
def complete_calibration (_s : AppCalView) (sample_rate : ℚ)
    (config : PlotConfig) : AppCalView :=
  { calibration :=
      { is_calibrating := false
        calculated_sample_rate := some sample_rate
        calibration_data := []
        calibration_start_time := none }
    is_collecting := true
    waveform_plot := WaveformPlot.new (ratTruncNat sample_rate) config }

/-- `CalibrationHandler::calculate_sample_rate_from_timestamps`
(`src/app/handlers/calibration.rs` lines 52-78): with at least 2 samples
and a positive span, compute the rate and complete the calibration;
otherwise set `is_calibrating := false` and change nothing else. -/
def calculate_sample_rate_from_timestamps (s : AppCalView)
    (config : PlotConfig) : AppCalView :=
  if s.calibration.calibration_data.length < 2 then
    { s with calibration := { s.calibration with is_calibrating := false } }
  else
    let first_timestamp :=
      (s.calibration.calibration_data.head?.getD default).timestamp
    let last_timestamp :=
      (s.calibration.calibration_data.getLast?.getD default).timestamp
    let time_diff_ms := last_timestamp - first_timestamp
    let sample_count : ℚ := s.calibration.calibration_data.length
    if 0 < time_diff_ms then
      complete_calibration s ((sample_count - 1) * 1000 / (time_diff_ms : ℚ)) config
    else
      { s with calibration := { s.calibration with is_calibrating := false } }

/-! ## Storage worker save task (`src/database/handlers.rs`) -/

/-- `SaveResult` (`src/types/results.rs`): counts of saved records plus
an optional error message. -/
structure SaveResult where
  acc_saved : ℕ
  audio_saved : ℕ
  error : Option String
deriving DecidableEq, Repr

/-- `handle_save_task` (`src/database/handlers.rs` lines 132-181), with
the two store operations abstracted as oracle outcomes
(`save_acc_result`, `save_audio_result`).  Returns the `SaveResult`
together with whether the audio sub-save was actually attempted: the code
guards the audio save by `!audio_data.is_empty() && error_msg.is_none()`,
so a sensor failure skips it. -/
def handle_save_task (accelerometer_data : List DataPoint)
    (audio_data : List ℚ)
    (save_acc_result : Except String ℕ)
    (save_audio_result : Except String ℕ) : SaveResult × Bool :=
  let step1 : ℕ × Option String :=
    if accelerometer_data.isEmpty then (0, none)
    else
      match save_acc_result with
      | .ok count => (count, none)
      | .error e => (0, some ("Error saving acc data: " ++ e))
  let acc_saved := step1.1
  let error_msg := step1.2
  if !audio_data.isEmpty && error_msg.isNone then
    match save_audio_result with
    | .ok count => (⟨acc_saved, count, error_msg⟩, true)
    | .error e => (⟨acc_saved, 0, some ("Error saving audio data: " ++ e)⟩, true)
  else
    (⟨acc_saved, 0, error_msg⟩, false)

/-! ## Save-task submission (`src/app/sensor_app.rs`) -/

/-- The payload of `DatabaseTask::Save` as built by
`save_current_window_data_async` (fields not needed by the claims carry
their snapshot values). -/
structure SaveTask where
  accelerometer_data : List DataPoint
  audio_data : List ℚ
  session_id : String
  username : String
  scenario : String
deriving DecidableEq, Repr

/-- A crossbeam bounded channel's sender-visible state. -/
structure DbTaskChannel where
  queue : List SaveTask
  capacity : ℕ
  connected : Bool
deriving DecidableEq, Repr

/-- Crossbeam `try_send` error cases. -/
inductive TrySendError where
  | full
  | disconnected
deriving DecidableEq, Repr

/-- Modelled from the documented semantics of crossbeam's non-blocking
`Sender::try_send` on a bounded channel (external library): enqueue when
connected and below capacity, otherwise fail immediately with `Full` or
`Disconnected`, never blocking. -/
def DbTaskChannel.try_send (ch : DbTaskChannel) (t : SaveTask) :
    DbTaskChannel × Option TrySendError :=
  if ch.connected = false then (ch, some .disconnected)
  else if ch.capacity ≤ ch.queue.length then (ch, some .full)
  else ({ ch with queue := ch.queue ++ [t] }, none)

/-- `SensorDataApp::save_current_window_data_async`
(`src/app/sensor_app.rs` lines 386-441), restricted to its effect on the
task channel and the `save_status` string.  The window snapshot
(`acc_data`, `audio_data`) and session labels are parameters (the code
reads them from the plot and collection state). -/
def save_current_window_data_async (acc_data : List DataPoint)
    (audio_data : List ℚ) (session_id username scenario : String)
    (ch : DbTaskChannel) : DbTaskChannel × String :=
  if acc_data.isEmpty ∧ audio_data.isEmpty then
    (ch, "No data to save")
  else
    let save_task : SaveTask :=
      ⟨acc_data, audio_data, session_id, username, scenario⟩
    match ch.try_send save_task with
    | (ch2, none) => (ch2, "Saving data...")
    | (_, some .full) => (ch, "Database queue is full, try again later")
    | (_, some .disconnected) =>
        (ch, "Database connection lost! Please restart the application.")

/-! ## Helper lemmas -/

/-- Flattening the merged audio gives back the flattened input. -/
lemma flattenAudio_mergeAudio (audio_data : List AudioBlock) :
    flattenAudio (mergeAudio audio_data) = flattenAudio audio_data := by
  unfold mergeAudio flattenAudio
  by_cases h : (audio_data.foldl (fun s b => s ++ b.samples) []).isEmpty
  · simp only [h, if_pos]
    simp only [List.isEmpty_iff] at h
    simp [h]
  · simp only [h]
    simp [List.foldl]

/-- Dropping `min n l.length` elements is dropping `n` elements. -/
lemma drop_min_length (l : List α) (n : ℕ) :
    l.drop (min n l.length) = l.drop n := by
  rcases le_total n l.length with h | h
  · rw [min_eq_left h]
  · rw [min_eq_right h, List.drop_eq_nil_of_le h, List.drop_eq_nil_of_le le_rfl]

/-! ## C2 / C3: calibration success and abort -/

/-- C2: once the measurement period has elapsed with at least 2
accumulated samples spanning a positive time difference, the engine
computes rate = (N-1)·1000/(t_last - t_first), records it, rebuilds the
sliding-window buffers from the truncated rate and the configured window
duration, clears the accumulator, and transitions to live collection. -/
theorem c2_calibration_success (s : AppCalView) (config : PlotConfig)
    (h2 : 2 ≤ s.calibration.calibration_data.length)
    (hpos : 0 < (s.calibration.calibration_data.getLast?.getD default).timestamp -
        (s.calibration.calibration_data.head?.getD default).timestamp) :
    calculate_sample_rate_from_timestamps s config =
      complete_calibration s
        (((s.calibration.calibration_data.length : ℚ) - 1) * 1000 /
          (((s.calibration.calibration_data.getLast?.getD default).timestamp -
            (s.calibration.calibration_data.head?.getD default).timestamp : ℤ) : ℚ))
        config
    ∧ (calculate_sample_rate_from_timestamps s config).calibration.calculated_sample_rate =
        some (((s.calibration.calibration_data.length : ℚ) - 1) * 1000 /
          (((s.calibration.calibration_data.getLast?.getD default).timestamp -
            (s.calibration.calibration_data.head?.getD default).timestamp : ℤ) : ℚ))
    ∧ (calculate_sample_rate_from_timestamps s config).calibration.is_calibrating = false
    ∧ (calculate_sample_rate_from_timestamps s config).is_collecting = true
    ∧ (calculate_sample_rate_from_timestamps s config).calibration.calibration_data = []
    ∧ (calculate_sample_rate_from_timestamps s config).waveform_plot =
        WaveformPlot.new
          (ratTruncNat (((s.calibration.calibration_data.length : ℚ) - 1) * 1000 /
            (((s.calibration.calibration_data.getLast?.getD default).timestamp -
              (s.calibration.calibration_data.head?.getD default).timestamp : ℤ) : ℚ)))
          config := by
  have hmain : calculate_sample_rate_from_timestamps s config =
      complete_calibration s
        (((s.calibration.calibration_data.length : ℚ) - 1) * 1000 /
          (((s.calibration.calibration_data.getLast?.getD default).timestamp -
            (s.calibration.calibration_data.head?.getD default).timestamp : ℤ) : ℚ))
        config := by
    unfold calculate_sample_rate_from_timestamps
    rw [if_neg (by omega), if_pos hpos]
  refine ⟨hmain, ?_, ?_, ?_, ?_, ?_⟩ <;> rw [hmain] <;> rfl

/-- C2 witness state: two accumulated samples 1000 ms apart. -/
def c2App : AppCalView :=
  { calibration :=
      { is_calibrating := true
        calibration_data := [⟨0, 0, 0, 0, 0, 0, 0⟩, ⟨0, 0, 0, 0, 0, 0, 1000⟩]
        calibration_start_time := some 0
        calculated_sample_rate := none }
    is_collecting := false
    waveform_plot := WaveformPlot.new 393 ⟨5⟩ }

/-- C2 witness: the two-sample run computes (2-1)·1000/1000 Hz, records
it and starts collecting. -/
theorem c2_calibration_success_witness :
    (calculate_sample_rate_from_timestamps c2App ⟨5⟩).calibration.calculated_sample_rate =
      some (((c2App.calibration.calibration_data.length : ℚ) - 1) * 1000 /
        (((c2App.calibration.calibration_data.getLast?.getD default).timestamp -
          (c2App.calibration.calibration_data.head?.getD default).timestamp : ℤ) : ℚ))
    ∧ (calculate_sample_rate_from_timestamps c2App ⟨5⟩).is_collecting = true :=
  ⟨(c2_calibration_success c2App ⟨5⟩ (by decide) (by decide)).2.1,
   (c2_calibration_success c2App ⟨5⟩ (by decide) (by decide)).2.2.2.1⟩

/-- C3 witness state: a calibration run that accumulated exactly one
sample. -/
def c3App : AppCalView :=
  { calibration :=
      { is_calibrating := true
        calibration_data := [⟨0, 0, 0, 0, 0, 0, 5⟩]
        calibration_start_time := some 0
        calculated_sample_rate := none }
    is_collecting := false
    waveform_plot := WaveformPlot.new 393 ⟨5⟩ }

/-- C3 counterexample: with exactly one accumulated sample, the abort
path does not return the engine to the waiting/accumulating state — it
clears `is_calibrating` (leaving calibration mode for the stopped state),
keeping the stale accumulator and start time.  No rate is emitted. -/
theorem c3_counterexample :
    ¬ ((calculate_sample_rate_from_timestamps c3App ⟨5⟩).calibration.is_calibrating = true
        ∧ (calculate_sample_rate_from_timestamps c3App ⟨5⟩).calibration.calibration_start_time = none) := by
  decide

/-- C3 amended: with fewer than 2 accumulated samples or a non-positive
timestamp span, calibration aborts silently — no rate is emitted and no
error propagates — but the engine merely sets `is_calibrating := false`
(everything else, including the accumulator and start time, is left in
place), rather than returning to the waiting-for-first-sample state. -/
theorem c3_calibration_abort (s : AppCalView) (config : PlotConfig)
    (h : s.calibration.calibration_data.length < 2 ∨
        (s.calibration.calibration_data.getLast?.getD default).timestamp -
          (s.calibration.calibration_data.head?.getD default).timestamp ≤ 0) :
    calculate_sample_rate_from_timestamps s config =
      { s with calibration := { s.calibration with is_calibrating := false } } := by
  unfold calculate_sample_rate_from_timestamps
  by_cases hlen : s.calibration.calibration_data.length < 2
  · rw [if_pos hlen]
  · rw [if_neg hlen]
    have hdiff : ¬ (0 < (s.calibration.calibration_data.getLast?.getD default).timestamp -
        (s.calibration.calibration_data.head?.getD default).timestamp) := by
      rcases h with h | h
      · exact absurd h hlen
      · omega
    rw [if_neg hdiff]

/-- C3 amended witness: the single-sample state aborts to
`is_calibrating = false` with everything else unchanged. -/
theorem c3_calibration_abort_witness :
    calculate_sample_rate_from_timestamps c3App ⟨5⟩ =
      { c3App with calibration := { c3App.calibration with is_calibrating := false } } :=
  c3_calibration_abort c3App ⟨5⟩ (by decide)

/-! ## C4: save-task error reporting -/

/-- C4 counterexample: with non-empty sensor and audio data, when the
sensor sub-save fails the audio sub-save is not attempted at all (and the
result reports only the sensor error), refuting that the two sub-saves
are attempted and captured independently. -/
theorem c4_counterexample :
    ¬ ((handle_save_task [default] [(0 : ℚ)]
          (.error "db locked") (.ok 1)).2 = true) := by
  decide

/-- C4 amended: the sensor sub-save always runs; the audio sub-save runs
only when the sensor sub-save produced no error.  Success reports both
counts; an audio failure after a sensor success reports the sensor count
together with the audio error; a sensor failure reports the sensor error
alone and skips the audio sub-save entirely. -/
theorem c4_save_task_reporting (accData : List DataPoint) (audioData : List ℚ)
    (hacc : accData ≠ []) (haudio : audioData ≠ []) :
    (∀ c c' : ℕ, handle_save_task accData audioData (.ok c) (.ok c') =
        (⟨c, c', none⟩, true))
    ∧ (∀ (c : ℕ) (e : String), handle_save_task accData audioData (.ok c) (.error e) =
        (⟨c, 0, some ("Error saving audio data: " ++ e)⟩, true))
    ∧ (∀ (e : String) (r : Except String ℕ),
        handle_save_task accData audioData (.error e) r =
        (⟨0, 0, some ("Error saving acc data: " ++ e)⟩, false)) := by
  have hacc' : accData.isEmpty = false := by
    simpa [List.isEmpty_iff] using hacc
  have haudio' : audioData.isEmpty = false := by
    simpa [List.isEmpty_iff] using haudio
  refine ⟨?_, ?_, ?_⟩ <;> intro a b <;>
    simp [handle_save_task, hacc', haudio']

/-- C4 amended witness: a concrete partial failure — sensor sub-save
succeeds with 3 rows, audio sub-save fails — reports both the count and
the audio error. -/
theorem c4_save_task_reporting_witness :
    handle_save_task [default] [(0 : ℚ)] (.ok 3) (.error "disk full") =
      (⟨3, 0, some ("Error saving audio data: " ++ "disk full")⟩, true) :=
  (c4_save_task_reporting [default] [(0 : ℚ)]
    (by decide) (by decide)).2.1 3 "disk full"

/-! ## C6: buffer capacity formula -/

/-- C6 counterexample: capacities come from the `as usize` truncation,
not from `ceil`: with `window_duration_seconds = 3/2` and a sample rate
of 3 the capacity is 4, while `ceil(3/2 · 3) = 5`. -/
theorem c6_counterexample :
    ¬ (((WaveformPlot.new 3 ⟨(3 : ℚ)/2⟩).max_samples : ℤ) =
        ⌈((3 : ℚ)/2) * (3 : ℚ)⌉) := by
  have h1 : (WaveformPlot.new 3 ⟨(3 : ℚ)/2⟩).max_samples = 4 := by
    show ratTruncNat ((3 : ℚ)/2 * 3) = 4
    have : ⌊((3 : ℚ)/2 * 3)⌋ = 4 := by
      rw [Int.floor_eq_iff]
      norm_num
    simp [ratTruncNat, this]
  have h2 : ⌈((3 : ℚ)/2) * (3 : ℚ)⌉ = 5 := by
    rw [Int.ceil_eq_iff]
    norm_num
  rw [h1, h2]
  decide

/-- C6 amended: for a non-negative window duration, both capacities are
the integer part (floor/truncation) of window × rate: the unique natural
`m` with `m ≤ window·rate < m + 1`.  The audio capacity uses the fixed
16000 Hz ingest rate, not the calibrated rate. -/
theorem c6_capacity_truncation (sample_rate : ℕ) (config : PlotConfig)
    (h : 0 ≤ config.window_duration_seconds) :
    (((WaveformPlot.new sample_rate config).max_samples : ℚ) ≤
        config.window_duration_seconds * (sample_rate : ℚ)
      ∧ config.window_duration_seconds * (sample_rate : ℚ) <
        (WaveformPlot.new sample_rate config).max_samples + 1)
    ∧ (((WaveformPlot.new sample_rate config).audio_max_samples : ℚ) ≤
        config.window_duration_seconds * 16000
      ∧ config.window_duration_seconds * 16000 <
        (WaveformPlot.new sample_rate config).audio_max_samples + 1) := by
  have key : ∀ q : ℚ, 0 ≤ q → ((ratTruncNat q : ℚ) ≤ q ∧ q < (ratTruncNat q : ℚ) + 1) := by
    intro q hq
    have hfl : (0 : ℤ) ≤ ⌊q⌋ := Int.floor_nonneg.mpr hq
    have hcast : ((ratTruncNat q : ℤ) : ℚ) = ((⌊q⌋ : ℤ) : ℚ) := by
      unfold ratTruncNat
      rw [Int.toNat_of_nonneg hfl]
    constructor
    · calc ((ratTruncNat q : ℕ) : ℚ) = ((⌊q⌋ : ℤ) : ℚ) := by push_cast at hcast ⊢; exact hcast
        _ ≤ q := Int.floor_le q
    · have h2 : q < ((⌊q⌋ : ℤ) : ℚ) + 1 := Int.lt_floor_add_one q
      calc q < ((⌊q⌋ : ℤ) : ℚ) + 1 := h2
        _ = ((ratTruncNat q : ℕ) : ℚ) + 1 := by push_cast at hcast ⊢; rw [hcast]
  constructor
  · exact key _ (by positivity)
  · exact key _ (by positivity)

/-- C6 amended witness: with window 3/2 s and rate 3 Hz the sensor
capacity 4 satisfies 4 ≤ 9/2 < 5, and the audio capacity is bracketed by
the fixed-rate product 24000. -/
theorem c6_capacity_truncation_witness :
    (((WaveformPlot.new 3 ⟨(3 : ℚ)/2⟩).max_samples : ℚ) ≤ ((3 : ℚ)/2) * (3 : ℚ)
      ∧ ((3 : ℚ)/2) * (3 : ℚ) < (WaveformPlot.new 3 ⟨(3 : ℚ)/2⟩).max_samples + 1)
    ∧ (((WaveformPlot.new 3 ⟨(3 : ℚ)/2⟩).audio_max_samples : ℚ) ≤ ((3 : ℚ)/2) * 16000
      ∧ ((3 : ℚ)/2) * 16000 < (WaveformPlot.new 3 ⟨(3 : ℚ)/2⟩).audio_max_samples + 1) :=
  c6_capacity_truncation 3 ⟨(3 : ℚ)/2⟩ (by norm_num)

/-! ## C8: alignment idempotence -/

/-- C8: when the two streams' first/last timestamps already coincide the
end-timestamp difference is 0, so the shift is 0 and alignment returns
the accelerometer stream unchanged, the audio samples unchanged up to
flattening, and offset 0 ms. -/
theorem c8_alignment_idempotent (acc_data : List DataPoint)
    (audio_data : List AudioBlock)
    (hacc : acc_data ≠ []) (haudio : audio_data ≠ [])
    (_hfirst : (acc_data.head?.getD default).timestamp =
        (audio_data.head?.getD default).start_ts)
    (hlast : (acc_data.getLast?.getD default).timestamp =
        (audio_data.getLast?.getD default).end_ts) :
    (align_session_data_internal acc_data audio_data).1 = acc_data
    ∧ flattenAudio (align_session_data_internal acc_data audio_data).2.1 =
        flattenAudio audio_data
    ∧ (align_session_data_internal acc_data audio_data).2.2 = 0 := by
  have hne : ¬ (acc_data.isEmpty ∨ audio_data.isEmpty) := by
    simp [List.isEmpty_iff, hacc, haudio]
  have hdiff : (audio_data.getLast?.getD default).end_ts -
      (acc_data.getLast?.getD default).timestamp = 0 := by omega
  unfold align_session_data_internal
  rw [if_neg hne]
  refine ⟨?_, ?_, ?_⟩
  · show alignAcc acc_data _ (rustRound _) = acc_data
    rw [hdiff]
    norm_num [rustRound, alignAcc]
  · exact flattenAudio_mergeAudio audio_data
  · show |(audio_data.getLast?.getD default).end_ts -
        (acc_data.getLast?.getD default).timestamp| = 0
    rw [hdiff]; rfl

/-- C8 witness: two single-block streams with coinciding endpoints pass
through alignment unchanged with offset 0. -/
theorem c8_alignment_idempotent_witness :
    (align_session_data_internal [⟨1, 2, 3, 4, 5, 6, 10⟩]
        [⟨10, 10, [(1 : ℚ)/2], 16000, 1, "PCM_16"⟩]).1 = [⟨1, 2, 3, 4, 5, 6, 10⟩]
    ∧ flattenAudio (align_session_data_internal [⟨1, 2, 3, 4, 5, 6, 10⟩]
        [⟨10, 10, [(1 : ℚ)/2], 16000, 1, "PCM_16"⟩]).2.1 =
        flattenAudio [⟨10, 10, [(1 : ℚ)/2], 16000, 1, "PCM_16"⟩]
    ∧ (align_session_data_internal [⟨1, 2, 3, 4, 5, 6, 10⟩]
        [⟨10, 10, [(1 : ℚ)/2], 16000, 1, "PCM_16"⟩]).2.2 = 0 :=
  c8_alignment_idempotent _ _ (by decide) (by decide) (by decide) (by decide)

/-! ## C9: non-blocking save submission -/

/-- C9: submitting a save task uses the non-blocking `try_send`: with
room in the queue the task is enqueued and the status reports saving;
on a full queue the submission fails immediately with the retryable
queue-full status; on a disconnected queue it fails with the
restart-required status.  In the failure cases the channel is returned
unchanged — only the status message differs. -/
theorem c9_save_submission (acc_data : List DataPoint) (audio_data : List ℚ)
    (session_id username scenario : String) (ch : DbTaskChannel)
    (hdata : ¬ (acc_data.isEmpty ∧ audio_data.isEmpty)) :
    (ch.connected = true → ch.queue.length < ch.capacity →
      save_current_window_data_async acc_data audio_data session_id username scenario ch =
        ({ ch with queue := ch.queue ++
            [⟨acc_data, audio_data, session_id, username, scenario⟩] }, "Saving data..."))
    ∧ (ch.connected = true → ch.capacity ≤ ch.queue.length →
      save_current_window_data_async acc_data audio_data session_id username scenario ch =
        (ch, "Database queue is full, try again later"))
    ∧ (ch.connected = false →
      save_current_window_data_async acc_data audio_data session_id username scenario ch =
        (ch, "Database connection lost! Please restart the application.")) := by
  unfold save_current_window_data_async DbTaskChannel.try_send
  rw [if_neg hdata]
  refine ⟨?_, ?_, ?_⟩
  · intro hconn hroom
    simp [hconn, not_le.mpr hroom]
  · intro hconn hfull
    simp [hconn, hfull]
  · intro hconn
    simp [hconn]

/-- C9 witness: a one-slot connected empty channel accepts the task and
reports saving. -/
theorem c9_save_submission_witness :
    save_current_window_data_async [default] [] "s" "u" "sc"
        ⟨[], 1, true⟩ =
      (⟨[⟨[default], [], "s", "u", "sc"⟩], 1, true⟩, "Saving data...") :=
  (c9_save_submission [default] [] "s" "u" "sc" ⟨[], 1, true⟩
    (by decide)).1 rfl (by decide)

/-! ## C10: hard-coded default rate in alignment -/

/-- C10: when the accelerometer stream has fewer than 2 samples or a
non-positive first-to-last span, alignment does not abort: it silently
substitutes the hard-coded 400 Hz default rate and proceeds, computing
the shift from that rate. -/
theorem c10_default_rate (acc_data : List DataPoint)
    (audio_data : List AudioBlock)
    (hacc : acc_data ≠ []) (haudio : audio_data ≠ [])
    (h : acc_data.length < 2 ∨
        (acc_data.getLast?.getD default).timestamp -
          (acc_data.head?.getD default).timestamp ≤ 0) :
    accSampleRateOf acc_data = 400
    ∧ align_session_data_internal acc_data audio_data =
        (alignAcc acc_data 400
          (rustRound ((((audio_data.getLast?.getD default).end_ts -
            (acc_data.getLast?.getD default).timestamp : ℤ) : ℚ) * 400 / 1000)),
         mergeAudio audio_data,
         |(audio_data.getLast?.getD default).end_ts -
           (acc_data.getLast?.getD default).timestamp|) := by
  have hrate : accSampleRateOf acc_data = 400 := by
    unfold accSampleRateOf
    by_cases hlen : 1 < acc_data.length
    · rw [if_pos hlen]
      have hdur : ¬ (0 < (acc_data.getLast?.getD default).timestamp -
          (acc_data.head?.getD default).timestamp) := by
        rcases h with h | h
        · omega
        · omega
      rw [if_neg hdur]
    · rw [if_neg hlen]
  have hne : ¬ (acc_data.isEmpty ∨ audio_data.isEmpty) := by
    simp [List.isEmpty_iff, hacc, haudio]
  refine ⟨hrate, ?_⟩
  unfold align_session_data_internal
  rw [if_neg hne, hrate]

/-- C10 witness: a one-sample accelerometer stream is aligned with the
400 Hz fallback (here the audio ends 10 ms later, so the shift is
round(10·400/1000) = 4 synthetic samples). -/
theorem c10_default_rate_witness :
    accSampleRateOf [⟨1, 2, 3, 4, 5, 6, 0⟩] = 400
    ∧ align_session_data_internal [⟨1, 2, 3, 4, 5, 6, 0⟩]
        [⟨0, 10, [(1 : ℚ)/2], 16000, 1, "PCM_16"⟩] =
      (alignAcc [⟨1, 2, 3, 4, 5, 6, 0⟩] 400 (rustRound (((10 : ℤ) : ℚ) * 400 / 1000)),
       mergeAudio [⟨0, 10, [(1 : ℚ)/2], 16000, 1, "PCM_16"⟩], |(10 : ℤ)|) :=
  c10_default_rate _ _ (by decide) (by decide) (by decide)

/-! ## C7: CSV export row structure -/

/-- The data rows are as many as the longer stream. -/
lemma csvDataRows_length (acc : List DataPoint) (audio : List ℚ) :
    (csvDataRows acc audio).length = max acc.length audio.length := by
  unfold csvDataRows
  simp only [List.length_append, List.length_zipWith]
  split
  · simp only [List.length_map, List.length_drop]; omega
  · split
    · simp only [List.length_map, List.length_drop]; omega
    · simp only [List.length_nil]; omega

/-- Rows below `min` pair the two streams index by index. -/
lemma csvDataRows_get_pair (acc : List DataPoint) (audio : List ℚ) (i : ℕ)
    (h1 : i < acc.length) (h2 : i < audio.length) :
    (csvDataRows acc audio)[i]? =
      some ⟨some (rowFields (acc.get ⟨i, h1⟩)), some (audio.get ⟨i, h2⟩)⟩ := by
  unfold csvDataRows
  rw [List.getElem?_append]
  rw [if_pos (by simp only [List.length_zipWith]; omega)]
  rw [List.getElem?_zipWith']
  rw [List.getElem?_eq_getElem h1, List.getElem?_eq_getElem h2]
  rfl

/-- Rows past the audio stream populate only the sensor fields. -/
lemma csvDataRows_get_acc_only (acc : List DataPoint) (audio : List ℚ) (i : ℕ)
    (h1 : audio.length ≤ i) (h2 : i < acc.length) :
    (csvDataRows acc audio)[i]? =
      some ⟨some (rowFields (acc.get ⟨i, h2⟩)), none⟩ := by
  unfold csvDataRows
  rw [List.getElem?_append]
  rw [if_neg (by simp only [List.length_zipWith]; omega)]
  rw [if_pos (by omega)]
  simp only [List.length_zipWith]
  have hmin : acc.length ⊓ audio.length = audio.length := by omega
  rw [hmin, List.getElem?_map, List.getElem?_drop]
  have hi : audio.length + (i - audio.length) = i := by omega
  rw [hi, List.getElem?_eq_getElem h2]
  rfl

/-- Rows past the accelerometer stream populate only the audio field. -/
lemma csvDataRows_get_audio_only (acc : List DataPoint) (audio : List ℚ) (i : ℕ)
    (h1 : acc.length ≤ i) (h2 : i < audio.length) :
    (csvDataRows acc audio)[i]? =
      some ⟨none, some (audio.get ⟨i, h2⟩)⟩ := by
  unfold csvDataRows
  rw [List.getElem?_append]
  rw [if_neg (by simp only [List.length_zipWith]; omega)]
  rw [if_neg (by omega), if_pos (by omega)]
  simp only [List.length_zipWith]
  have hmin : acc.length ⊓ audio.length = acc.length := by omega
  rw [hmin, List.getElem?_map, List.getElem?_drop]
  have hi : acc.length + (i - acc.length) = i := by omega
  rw [hi, List.getElem?_eq_getElem h2]
  rfl

/-- C7: the exported CSV is the header followed by exactly
max(N_acc, N_audio) data rows over the aligned streams: row i pairs the
i-th accelerometer sample with the i-th flattened audio sample while both
exist, and each remaining row of the longer stream leaves the other
stream's fields blank (`none`), never zero-filled. -/
theorem c7_export_csv_rows (aligned_acc_data : List DataPoint)
    (trimmed_audio_data : List AudioBlock) :
    (exportCsv aligned_acc_data trimmed_audio_data).1 = csvHeader
    ∧ (exportCsv aligned_acc_data trimmed_audio_data).2.length =
        max aligned_acc_data.length (flattenAudio trimmed_audio_data).length
    ∧ (∀ i (h1 : i < aligned_acc_data.length)
        (h2 : i < (flattenAudio trimmed_audio_data).length),
        (exportCsv aligned_acc_data trimmed_audio_data).2[i]? =
          some ⟨some (rowFields (aligned_acc_data.get ⟨i, h1⟩)),
                some ((flattenAudio trimmed_audio_data).get ⟨i, h2⟩)⟩)
    ∧ (∀ i (h1 : (flattenAudio trimmed_audio_data).length ≤ i)
        (h2 : i < aligned_acc_data.length),
        (exportCsv aligned_acc_data trimmed_audio_data).2[i]? =
          some ⟨some (rowFields (aligned_acc_data.get ⟨i, h2⟩)), none⟩)
    ∧ (∀ i (h1 : aligned_acc_data.length ≤ i)
        (h2 : i < (flattenAudio trimmed_audio_data).length),
        (exportCsv aligned_acc_data trimmed_audio_data).2[i]? =
          some ⟨none, some ((flattenAudio trimmed_audio_data).get ⟨i, h2⟩)⟩) :=
  ⟨rfl,
   csvDataRows_length _ _,
   fun i h1 h2 => csvDataRows_get_pair _ _ i h1 h2,
   fun i h1 h2 => csvDataRows_get_acc_only _ _ i h1 h2,
   fun i h1 h2 => csvDataRows_get_audio_only _ _ i h1 h2⟩

/-- C7 witness: two aligned accelerometer samples against one audio
sample give two rows — a fully populated first row and a second row with
a blank audio field. -/
theorem c7_export_csv_rows_witness :
    (exportCsv [⟨1, 2, 3, 4, 5, 6, 0⟩, ⟨7, 8, 9, 10, 11, 12, 1000⟩]
        [⟨0, 1000, [(1 : ℚ)/4], 16000, 1, "PCM_16"⟩]).2.length = 2
    ∧ (exportCsv [⟨1, 2, 3, 4, 5, 6, 0⟩, ⟨7, 8, 9, 10, 11, 12, 1000⟩]
        [⟨0, 1000, [(1 : ℚ)/4], 16000, 1, "PCM_16"⟩]).2[0]? =
        some ⟨some (1, 2, 3, 4, 5, 6), some ((1 : ℚ)/4)⟩
    ∧ (exportCsv [⟨1, 2, 3, 4, 5, 6, 0⟩, ⟨7, 8, 9, 10, 11, 12, 1000⟩]
        [⟨0, 1000, [(1 : ℚ)/4], 16000, 1, "PCM_16"⟩]).2[1]? =
        some ⟨some (7, 8, 9, 10, 11, 12), none⟩ :=
  ⟨(c7_export_csv_rows _ _).2.1,
   (c7_export_csv_rows _ _).2.2.1 0 (by decide) (by decide),
   (c7_export_csv_rows _ _).2.2.2.1 1 (by decide) (by decide)⟩

/-! ## C5: sliding-window buffer invariant -/

/-- One push-then-evict step on a single deque of capacity `cap`
(the per-buffer behaviour of `add_data`). -/
def slidePush (cap : ℕ) (l : List α) (x : α) : List α :=
  let l2 := l ++ [x]
  if cap < l2.length then l2.drop 1 else l2

/-- Batch extend-then-evict on a single deque of capacity `cap`
(the per-buffer behaviour of `add_audio_samples`). -/
def slideCat (cap : ℕ) (l : List α) (ys : List α) : List α :=
  let l2 := l ++ ys
  l2.drop (l2.length - cap)

/-- The last `cap` elements of `l`. -/
def tailFrom (l : List α) (cap : ℕ) : List α := l.drop (l.length - cap)

lemma tailFrom_length (l : List α) (cap : ℕ) :
    (tailFrom l cap).length = min l.length cap := by
  simp only [tailFrom, List.length_drop]
  omega

lemma slidePush_tailFrom (cap : ℕ) (full : List α) (x : α) :
    slidePush cap (tailFrom full cap) x = tailFrom (full ++ [x]) cap := by
  unfold slidePush tailFrom
  have hd : full.length - cap ≤ full.length := by omega
  rw [← List.drop_append_of_le_length hd]
  simp only [List.length_drop, List.length_append, List.length_cons,
    List.length_nil, List.drop_drop]
  by_cases hc : cap < full.length - (full.length - cap) + 1
  · rw [if_pos (by omega)]
    congr 1
    omega
  · rw [if_neg (by omega)]
    congr 1
    omega

lemma slideCat_tailFrom (cap : ℕ) (full ys : List α) :
    slideCat cap (tailFrom full cap) ys = tailFrom (full ++ ys) cap := by
  unfold slideCat tailFrom
  have hd : full.length - cap ≤ full.length := by omega
  rw [← List.drop_append_of_le_length hd]
  simp only [List.length_drop, List.length_append, List.drop_drop]
  congr 1
  omega

/-- An empty plot with the given capacities: the buffer state right after
`WaveformPlot::new` (window durations irrelevant to the buffers). -/
def emptyPlot (C audioC : ℕ) : WaveformPlot :=
  ⟨[], [], [], [], [], [], [], [], [], C, 0, audioC, 0⟩

/-- Feeding a stream of sensor samples through `add_data` one by one. -/
def pushAll (p : WaveformPlot) (ps : List DataPoint) : WaveformPlot :=
  ps.foldl (fun pl q => pl.add_data q.x q.y q.z q.gx q.gy q.gz q.timestamp) p

/-- One ingest audio chunk as passed to `add_audio_samples`. -/
structure AudioBatch where
  samples : List ℤ
  base_timestamp : ℤ
  sample_rate : ℕ
deriving DecidableEq, Repr

/-- Feeding a stream of audio chunks through `add_audio_samples`. -/
def pushAllAudio (p : WaveformPlot) (bs : List AudioBatch) : WaveformPlot :=
  bs.foldl (fun pl b => pl.add_audio_samples b.samples b.base_timestamp b.sample_rate) p

/-- The normalized samples of a list of audio batches, in push order. -/
def normalizedOf (bs : List AudioBatch) : List ℚ :=
  (bs.map fun b => b.samples.map fun s => (s : ℚ) / 32768).flatten

/-- With all sensor buffers in lockstep, `add_data` is `slidePush` on
every sensor buffer. -/
lemma add_data_eq_slidePush (p : WaveformPlot)
    (hy : p.buffer_y.length = p.buffer_x.length)
    (hz : p.buffer_z.length = p.buffer_x.length)
    (hgx : p.buffer_gx.length = p.buffer_x.length)
    (hgy : p.buffer_gy.length = p.buffer_x.length)
    (hgz : p.buffer_gz.length = p.buffer_x.length)
    (ht : p.buffer_timestamp.length = p.buffer_x.length)
    (x y z gx gy gz : ℚ) (ts : ℤ) :
    p.add_data x y z gx gy gz ts = { p with
      buffer_x := slidePush p.max_samples p.buffer_x x
      buffer_y := slidePush p.max_samples p.buffer_y y
      buffer_z := slidePush p.max_samples p.buffer_z z
      buffer_gx := slidePush p.max_samples p.buffer_gx gx
      buffer_gy := slidePush p.max_samples p.buffer_gy gy
      buffer_gz := slidePush p.max_samples p.buffer_gz gz
      buffer_timestamp := slidePush p.max_samples p.buffer_timestamp ts } := by
  by_cases h : p.max_samples < p.buffer_x.length + 1 <;>
    simp [WaveformPlot.add_data, slidePush, hy, hz, hgx, hgy, hgz, ht, h]

/-- `add_audio_samples` is `slideCat` on the audio sample buffer. -/
lemma add_audio_samples_eq_slideCat (p : WaveformPlot) (samples : List ℤ)
    (base_timestamp : ℤ) (sample_rate : ℕ) :
    (p.add_audio_samples samples base_timestamp sample_rate).audio_buffer =
      slideCat p.audio_max_samples p.audio_buffer
        (samples.map fun s => (s : ℚ) / 32768)
    ∧ (p.add_audio_samples samples base_timestamp sample_rate).audio_max_samples =
      p.audio_max_samples := by
  constructor <;> rfl

/-- The sensor buffers of a fold of `add_data` from the empty plot hold
the tail of the pushed projections. -/
lemma pushAll_buffers (C audioC : ℕ) (ps : List DataPoint) :
    (pushAll (emptyPlot C audioC) ps).buffer_x = tailFrom (ps.map DataPoint.x) C
    ∧ (pushAll (emptyPlot C audioC) ps).buffer_y = tailFrom (ps.map DataPoint.y) C
    ∧ (pushAll (emptyPlot C audioC) ps).buffer_z = tailFrom (ps.map DataPoint.z) C
    ∧ (pushAll (emptyPlot C audioC) ps).buffer_gx = tailFrom (ps.map DataPoint.gx) C
    ∧ (pushAll (emptyPlot C audioC) ps).buffer_gy = tailFrom (ps.map DataPoint.gy) C
    ∧ (pushAll (emptyPlot C audioC) ps).buffer_gz = tailFrom (ps.map DataPoint.gz) C
    ∧ (pushAll (emptyPlot C audioC) ps).buffer_timestamp =
        tailFrom (ps.map DataPoint.timestamp) C
    ∧ (pushAll (emptyPlot C audioC) ps).max_samples = C := by
  induction ps using List.reverseRecOn with
  | nil =>
      simp [pushAll, emptyPlot, tailFrom]
  | append_singleton qs q ih =>
      obtain ⟨hx, hy, hz, hgx, hgy, hgz, ht, hmax⟩ := ih
      unfold pushAll at *
      rw [List.foldl_concat]
      rw [add_data_eq_slidePush _
        (by rw [hy, hx]; simp [tailFrom_length])
        (by rw [hz, hx]; simp [tailFrom_length])
        (by rw [hgx, hx]; simp [tailFrom_length])
        (by rw [hgy, hx]; simp [tailFrom_length])
        (by rw [hgz, hx]; simp [tailFrom_length])
        (by rw [ht, hx]; simp [tailFrom_length])]
      refine ⟨?_, ?_, ?_, ?_, ?_, ?_, ?_, ?_⟩ <;>
        simp only [hx, hy, hz, hgx, hgy, hgz, ht, hmax, List.map_append,
          List.map_cons, List.map_nil, slidePush_tailFrom]

/-- The audio buffer of a fold of `add_audio_samples` from the empty plot
holds the tail of the normalized pushed samples. -/
lemma pushAllAudio_buffer (C audioC : ℕ) (bs : List AudioBatch) :
    (pushAllAudio (emptyPlot C audioC) bs).audio_buffer =
      tailFrom (normalizedOf bs) audioC
    ∧ (pushAllAudio (emptyPlot C audioC) bs).audio_max_samples = audioC := by
  induction bs using List.reverseRecOn with
  | nil =>
      simp [pushAllAudio, emptyPlot, tailFrom, normalizedOf]
  | append_singleton cs b ih =>
      obtain ⟨hbuf, hmax⟩ := ih
      unfold pushAllAudio at *
      rw [List.foldl_concat]
      obtain ⟨h1, h2⟩ := add_audio_samples_eq_slideCat
        (cs.foldl (fun pl b => pl.add_audio_samples b.samples b.base_timestamp b.sample_rate)
          (emptyPlot C audioC)) b.samples b.base_timestamp b.sample_rate
      rw [h1, h2, hbuf, hmax, slideCat_tailFrom]
      refine ⟨?_, rfl⟩
      congr 1
      simp [normalizedOf, List.map_append]

/-- C5: for capacities C (sensor) and audioC (audio), pushing C+k sensor
samples one by one and audio chunks totalling audioC+k2 samples leaves
each buffer holding exactly its capacity, equal to the last C (resp.
audioC) pushed values in their original relative order; and after every
prefix of the pushes the buffer length never exceeds the capacity. -/
theorem c5_sliding_window_invariant (C audioC k k2 : ℕ) (ps : List DataPoint)
    (bs : List AudioBatch)
    (hlen : ps.length = C + k)
    (hblen : (normalizedOf bs).length = audioC + k2) :
    ((pushAll (emptyPlot C audioC) ps).buffer_x = (ps.map DataPoint.x).drop k
      ∧ (pushAll (emptyPlot C audioC) ps).buffer_y = (ps.map DataPoint.y).drop k
      ∧ (pushAll (emptyPlot C audioC) ps).buffer_z = (ps.map DataPoint.z).drop k
      ∧ (pushAll (emptyPlot C audioC) ps).buffer_gx = (ps.map DataPoint.gx).drop k
      ∧ (pushAll (emptyPlot C audioC) ps).buffer_gy = (ps.map DataPoint.gy).drop k
      ∧ (pushAll (emptyPlot C audioC) ps).buffer_gz = (ps.map DataPoint.gz).drop k
      ∧ (pushAll (emptyPlot C audioC) ps).buffer_timestamp =
          (ps.map DataPoint.timestamp).drop k)
    ∧ (pushAll (emptyPlot C audioC) ps).buffer_x.length = C
    ∧ (∀ n, (pushAll (emptyPlot C audioC) (ps.take n)).buffer_x.length ≤ C)
    ∧ (pushAllAudio (emptyPlot C audioC) bs).audio_buffer = (normalizedOf bs).drop k2
    ∧ (pushAllAudio (emptyPlot C audioC) bs).audio_buffer.length = audioC
    ∧ (∀ n, (pushAllAudio (emptyPlot C audioC) (bs.take n)).audio_buffer.length ≤ audioC) := by
  have hdrop : ∀ (l : List ℚ), l.length = ps.length → tailFrom l C = l.drop k := by
    intro l hl
    unfold tailFrom
    congr 1
    omega
  obtain ⟨hx, hy, hz, hgx, hgy, hgz, ht, _⟩ := pushAll_buffers C audioC ps
  obtain ⟨habuf, _⟩ := pushAllAudio_buffer C audioC bs
  refine ⟨⟨?_, ?_, ?_, ?_, ?_, ?_, ?_⟩, ?_, ?_, ?_, ?_, ?_⟩
  · rw [hx, hdrop _ (List.length_map _ _)]
  · rw [hy, hdrop _ (List.length_map _ _)]
  · rw [hz, hdrop _ (List.length_map _ _)]
  · rw [hgx, hdrop _ (List.length_map _ _)]
  · rw [hgy, hdrop _ (List.length_map _ _)]
  · rw [hgz, hdrop _ (List.length_map _ _)]
  · rw [ht]
    unfold tailFrom
    congr 1
    simp only [List.length_map]
    omega
  · rw [hx, tailFrom_length, List.length_map]
    omega
  · intro n
    obtain ⟨hx', _⟩ := pushAll_buffers C audioC (ps.take n)
    rw [hx', tailFrom_length]
    omega
  · rw [habuf]
    unfold tailFrom
    congr 1
    omega
  · rw [habuf, tailFrom_length]
    omega
  · intro n
    obtain ⟨habuf', _⟩ := pushAllAudio_buffer C audioC (bs.take n)
    rw [habuf', tailFrom_length]
    omega

/-- C5 witness: capacity 2 with 3 sensor pushes keeps the last 2 samples;
audio capacity 2 with one 3-sample chunk keeps the last 2 normalized
samples; no prefix exceeds the capacities. -/
theorem c5_sliding_window_invariant_witness :
    (pushAll (emptyPlot 2 2) [⟨1, 2, 3, 4, 5, 6, 0⟩, ⟨7, 8, 9, 10, 11, 12, 1⟩,
        ⟨13, 14, 15, 16, 17, 18, 2⟩]).buffer_x = [7, 13]
    ∧ (pushAllAudio (emptyPlot 2 2)
        [⟨[16384, 8192, 4096], 0, 16000⟩]).audio_buffer = [(1 : ℚ)/4, (1 : ℚ)/8]
    ∧ (pushAll (emptyPlot 2 2) ([⟨1, 2, 3, 4, 5, 6, 0⟩, ⟨7, 8, 9, 10, 11, 12, 1⟩,
        ⟨13, 14, 15, 16, 17, 18, 2⟩].take 2)).buffer_x.length ≤ 2 := by
  obtain ⟨⟨hx, _⟩, _, hpre, habuf, _⟩ :=
    c5_sliding_window_invariant 2 2 1 1
      [⟨1, 2, 3, 4, 5, 6, 0⟩, ⟨7, 8, 9, 10, 11, 12, 1⟩, ⟨13, 14, 15, 16, 17, 18, 2⟩]
      [⟨[16384, 8192, 4096], 0, 16000⟩] (by decide) (by decide)
  exact ⟨by rw [hx]; decide, by rw [habuf]; norm_num [normalizedOf], hpre 2⟩

/-! ## C1: end-anchored shift with padding -/

/-- C1: for an accelerometer stream of at least 2 samples whose first
timestamp is strictly below its last and a non-empty audio stream, with
acc_rate = (count-1)·1000/(last-first) and
shift = round((audio_last - acc_last)·acc_rate/1000): a positive shift
yields `shift` synthetic samples replicating the first sample's six
sensor values, timestamps extrapolated backward from the first timestamp
at the interval 1000/acc_rate ms (truncated to whole ms), followed by the
original samples with the last `shift` dropped; a negative shift drops
|shift| samples from the start and appends |shift| synthetic samples
replicating the last sample's values with forward-extrapolated
timestamps. -/
theorem c1_alignment_shift_padding (acc_data : List DataPoint)
    (audio_data : List AudioBlock)
    (h2 : 2 ≤ acc_data.length)
    (hmono : (acc_data.head?.getD default).timestamp <
        (acc_data.getLast?.getD default).timestamp)
    (haudio : audio_data ≠ [])
    (acc_rate : ℚ) (shift : ℤ)
    (hrate_eq : acc_rate = ((acc_data.length - 1 : ℕ) : ℚ) * 1000 /
        (((acc_data.getLast?.getD default).timestamp -
          (acc_data.head?.getD default).timestamp : ℤ) : ℚ))
    (hshift_eq : shift = rustRound
        ((((audio_data.getLast?.getD default).end_ts -
          (acc_data.getLast?.getD default).timestamp : ℤ) : ℚ) * acc_rate / 1000)) :
    (0 < shift →
      (align_session_data_internal acc_data audio_data).1 =
        ((List.range shift.toNat).map fun i =>
          { acc_data.head?.getD default with
            timestamp := (acc_data.head?.getD default).timestamp -
              ratTrunc (((shift.toNat - i : ℕ) : ℚ) * (1000 / acc_rate)) })
          ++ acc_data.take (acc_data.length - shift.toNat))
    ∧ (shift < 0 →
      (align_session_data_internal acc_data audio_data).1 =
        acc_data.drop (-shift).toNat
          ++ ((List.range (-shift).toNat).map fun i =>
            { acc_data.getLast?.getD default with
              timestamp := (acc_data.getLast?.getD default).timestamp +
                ratTrunc (((i + 1 : ℕ) : ℚ) * (1000 / acc_rate)) })) := by
  have hne : acc_data ≠ [] := by
    intro h
    rw [h] at h2
    simp at h2
  have hnemp : ¬ (acc_data.isEmpty ∨ audio_data.isEmpty) := by
    simp [List.isEmpty_iff, hne, haudio]
  have hrate : accSampleRateOf acc_data = acc_rate := by
    rw [hrate_eq]
    unfold accSampleRateOf
    rw [if_pos (by omega), if_pos (by omega)]
  have hfp : acc_data.head?.getD default = acc_data.head hne := by
    rw [List.head?_eq_head hne]
    rfl
  have hlp : acc_data.getLast?.getD default = acc_data.getLast hne := by
    rw [List.getLast?_eq_getLast _ hne]
    rfl
  have halign : (align_session_data_internal acc_data audio_data).1 =
      alignAcc acc_data acc_rate shift := by
    unfold align_session_data_internal
    rw [if_neg hnemp]
    dsimp only
    rw [hrate, ← hshift_eq]
  rw [halign]
  constructor
  · intro hpos
    unfold alignAcc
    rw [if_neg (by omega), if_pos hpos]
    rw [List.head?_eq_head hne]
    have he : (if shift.toNat < acc_data.length
        then acc_data.length - shift.toNat else 0) =
        acc_data.length - shift.toNat := by
      split <;> omega
    dsimp only
    rw [he]
    simp only [Option.getD_some]
    unfold syntheticFront
    rfl
  · intro hneg
    unfold alignAcc
    rw [if_neg (by omega), if_neg (by omega)]
    rw [List.getLast?_eq_getLast _ hne]
    dsimp only
    rw [drop_min_length]
    simp only [Option.getD_some]
    unfold syntheticBack
    rfl

/-- C1 witness: 2 samples spanning 1000 ms (rate 1 Hz) against audio
ending 2000 ms later: shift = 2, so the aligned stream is two synthetic
copies of the first point at timestamps -2000 and -1000, followed by the
original samples with the last 2 dropped (i.e. none). -/
theorem c1_alignment_shift_padding_witness :
    0 < (2 : ℤ)
    ∧ (align_session_data_internal
        [⟨1, 2, 3, 4, 5, 6, 0⟩, ⟨7, 8, 9, 10, 11, 12, 1000⟩]
        [⟨0, 3000, [(1 : ℚ)/2], 16000, 1, "PCM_16"⟩]).1 =
      [⟨1, 2, 3, 4, 5, 6, -2000⟩, ⟨1, 2, 3, 4, 5, 6, -1000⟩] := by
  refine ⟨by norm_num, ?_⟩
  have h := (c1_alignment_shift_padding
      [⟨1, 2, 3, 4, 5, 6, 0⟩, ⟨7, 8, 9, 10, 11, 12, 1000⟩]
      [⟨0, 3000, [(1 : ℚ)/2], 16000, 1, "PCM_16"⟩]
      (by decide) (by decide) (by decide) 1 2
      (by norm_num)
      (by norm_num [rustRound])).1 (by norm_num)
  rw [h]
  have hn : Int.toNat 2 = 2 := rfl
  simp only [List.head?_cons, Option.getD_some, hn,
    show List.range 2 = [0, 1] from rfl, List.map_cons, List.map_nil,
    List.length_cons, List.length_nil]
  norm_num [ratTrunc]

end SenseHub
